import Mathlib

/-!
# Verification of the claude-server authentication-and-quota pipeline

Shallow embedding of the middleware in `src/utils/config.ts` (the functions
`authenticateToken`, `authenticateApiKey`, `userRateLimit`, `optionalAuth`),
the cache service in `src/services/cache.ts`, and the `users` schema of
`database/schema/schema.sql`.

External collaborators are modelled by explicit outcome parameters:
* `jwt.verify` is abstracted into a `VerifyOutcome` (the jsonwebtoken library
  throws a `JsonWebTokenError` — of which `TokenExpiredError` is a subclass —
  for malformed, signature-tampered and expired tokens alike; any other throw
  is `otherError`);
* the MySQL store is a `List UserRow` together with a `dbUp : Bool` flag (a
  query on a downed store throws);
* Redis values are plain strings for the quota counters, and for the identity
  cache a `JsonVal` that models `JSON.stringify`/`JSON.parse` of the selected
  row (`userJson` is the stringified row, `raw` a cached string that
  `JSON.parse` does not accept as a user record);
* a fallible cache/database call is an `Except Unit _` — `.error ()` is the
  call throwing.

Express control flow (`res.status(...).json(...)` versus `next()`) is the
returned outcome value; side effects performed on the way (cache writes,
audit inserts, `logger.error` in a `catch`) are returned as ordered traces.
-/

namespace ClaudeServer

/-- A row of the `users` table (`database/schema/schema.sql`, lines 18-28).
`api_key` is nullable, `rate_limit_per_hour` and `is_active` have defaults
but are representable as absent/null at the row level. -/
structure UserRow where
  id : Int
  username : String
  email : String
  password_hash : String
  api_key : Option String
  rate_limit_per_hour : Option Int
  is_active : Bool
deriving DecidableEq, Repr

/-- The projection produced by
SELECT id, username, email, api_key, rate_limit_per_hour FROM users -
note that `is_active` is NOT selected. -/
structure ProjRow where
  id : Int
  username : String
  email : String
  api_key : Option String
  rate_limit_per_hour : Option Int
deriving DecidableEq, Repr

/-- Row projection applied by the SELECT used in all four middleware. -/
def projRow (r : UserRow) : ProjRow :=
  { id := r.id, username := r.username, email := r.email,
    api_key := r.api_key, rate_limit_per_hour := r.rate_limit_per_hour }

/-- The `req.user` object the middleware attach to the request
(`AuthenticatedRequest`, config.ts lines 56-64). -/
structure AuthUser where
  userId : Int
  email : String
  username : String
  apiKey : Option String
  rateLimitPerHour : Option Int
deriving DecidableEq, Repr

/-- `req.user = { userId: user.id, email: user.email, ... }`. -/
def toAuthUser (p : ProjRow) : AuthUser :=
  { userId := p.id, email := p.email, username := p.username,
    apiKey := p.api_key, rateLimitPerHour := p.rate_limit_per_hour }

/-- The token claims used by the middleware: `decoded.userId`. -/
structure Claims where
  userId : Int
deriving DecidableEq, Repr

/-- Outcome of `jwt.verify(token, secret)`: success with decoded claims,
a `jwt.JsonWebTokenError` throw (malformed / bad signature / expired), or
any other throw. -/
inductive VerifyOutcome where
  | ok (claims : Claims)
  | jwtError
  | otherError
deriving DecidableEq, Repr

/-- Terminal response of an authentication middleware: `next()` with
`req.user` set, a 401 JSON response, or a 500 JSON response. -/
inductive AuthOutcome where
  | authenticated (user : AuthUser)
  | unauthorized (message : String)
  | serverError (message : String)
deriving DecidableEq, Repr

/-- The users matched by `WHERE id = ?`. -/
def queryById (db : List UserRow) (uid : Int) : List UserRow :=
  db.filter (fun r => r.id == uid)

/-- The users matched by `WHERE api_key = ?`. -/
def queryByApiKey (db : List UserRow) (key : String) : List UserRow :=
  db.filter (fun r => r.api_key == some key)

/-- `authenticateToken` (config.ts lines 67-125). Returns the response
outcome together with a flag recording whether the Identity Store query was
issued. The SQL selects `id, username, email, api_key, rate_limit_per_hour`
and filters only by `id` — `is_active` is neither selected nor tested,
although the comment above the query reads
"Verify user still exists and is active". -/
def authenticateToken (token : Option String) (verify : VerifyOutcome)
    (db : List UserRow) (dbUp : Bool) : AuthOutcome × Bool :=
  match token with
  | none => (.unauthorized "Access token required", false)
  | some _ =>
    match verify with
    | .jwtError => (.unauthorized "Invalid token", false)
    | .otherError => (.serverError "Authentication failed", false)
    | .ok claims =>
      if dbUp then
        match queryById db claims.userId with
        | [] => (.unauthorized "User not found", true)
        | r :: _ => (.authenticated (toAuthUser (projRow r)), true)
      else
        (.serverError "Authentication failed", true)

/-- A string stored in the identity cache, viewed through
`JSON.stringify`/`JSON.parse`: `userJson p` is `JSON.stringify` of the
selected row `p`; `raw s` is any cached string that `JSON.parse` fails on
(the middleware logs the parse failure and falls through to the store). -/
inductive JsonVal where
  | userJson (p : ProjRow)
  | raw (s : String)
deriving DecidableEq, Repr

/-- `JSON.parse` of a cached identity value, as used by the middleware. -/
def jsonParseProj : JsonVal → Option ProjRow
  | .userJson p => some p
  | .raw _ => none

/-- The identity-cache key: the string api_key: followed by the key. -/
def apiCacheKey (key : String) : String := "api_key:" ++ key

/-- `CacheService.get` (cache.ts lines 74-85): a client-level `get` error is
logged and turned into `null`; note a connect failure before the `try` still
throws, which the callers below model with their own `Except` parameter. -/
def cacheServiceGet (clientGet : Except Unit (Option String)) : Option String :=
  match clientGet with
  | .ok v => v
  | .error _ => none

/-- `CacheService.set` (cache.ts lines 87-106): a client-level `setEx`/`set`
error is logged and RE-THROWN — unlike `get`, a failed `set` propagates to
the caller. -/
def cacheServiceSet (clientSet : Except Unit Unit) : Except Unit Unit :=
  match clientSet with
  | .ok _ => .ok ()
  | .error e => .error e

/-- `authenticateApiKey` (config.ts lines 128-194). `cacheGet` is the result
of `await cache.get("api_key:" + key)` (it may throw on connect failure);
`cacheSet` is the client-level outcome of the 300-second write-back, routed
through `cacheServiceSet`. The second component is the list of cache writes
performed, as (key, value, ttlSeconds). -/
def authenticateApiKey (apiKey : Option String)
    (cacheGet : Except Unit (Option JsonVal)) (db : List UserRow)
    (dbUp : Bool) (cacheSet : Except Unit Unit) :
    AuthOutcome × List (String × JsonVal × Nat) :=
  match apiKey with
  | none => (.unauthorized "API key required", [])
  | some key =>
    match cacheGet with
    | .error _ => (.serverError "Authentication failed", [])
    | .ok cachedStr =>
      match cachedStr.bind jsonParseProj with
      | some p => (.authenticated (toAuthUser p), [])
      | none =>
        if dbUp then
          match queryByApiKey db key with
          | [] => (.unauthorized "Invalid API key", [])
          | r :: _ =>
            match cacheServiceSet cacheSet with
            | .error _ => (.serverError "Authentication failed", [])
            | .ok _ =>
              (.authenticated (toAuthUser (projRow r)),
               [(apiCacheKey key, .userJson (projRow r), 300)])
        else
          (.serverError "Authentication failed", [])

/-- An Identity Store query issued by `optionalAuth`, for tracing which
scheme was attempted. -/
inductive Query where
  | byId (uid : Int)
  | byApiKey (key : String)
deriving DecidableEq, Repr

/-- `s.startsWith(p)`: `p` is a prefix of `s` (by characters; equivalent to
the JavaScript check on the literals at hand). -/
def strStartsWith (s p : String) : Bool :=
  List.isPrefixOf p.data s.data

/-- The `else if (apiKey)` branch of `optionalAuth`: query by API key,
swallowing a store error (the inner catch continues without
authentication). -/
def optionalAuthApiKeyBranch (apiKey : Option String) (db : List UserRow)
    (dbUp : Bool) : Option AuthUser × List Query :=
  match apiKey with
  | none => (none, [])
  | some key =>
    if dbUp then
      match queryByApiKey db key with
      | [] => (none, [.byApiKey key])
      | r :: _ => (some (toAuthUser (projRow r)), [.byApiKey key])
    else
      (none, [.byApiKey key])

/-- `optionalAuth` (config.ts lines 257-318). The guard is
`if (authHeader && authHeader.startsWith("Bearer "))` with the API-key
lookup in an `else if (apiKey)` — so when a Bearer header is present the
API-key branch is never reached, whatever happens to the token. Inside the
Bearer branch, both a `jwt.verify` throw and a store throw are swallowed by
`catch (jwtError)` and the request proceeds unauthenticated. Always ends in
`next()`: the outcome is the resolved identity (or none), with the trace of
store queries issued. -/
def optionalAuth (authHeader : Option String) (apiKey : Option String)
    (verify : VerifyOutcome) (db : List UserRow) (dbUp : Bool) :
    Option AuthUser × List Query :=
  match authHeader with
  | some h =>
    if strStartsWith h "Bearer " then
      match verify with
      | .ok claims =>
        if dbUp then
          match queryById db claims.userId with
          | [] => (none, [.byId claims.userId])
          | r :: _ => (some (toAuthUser (projRow r)), [.byId claims.userId])
        else
          (none, [.byId claims.userId])
      | _ => (none, [])
    else
      optionalAuthApiKeyBranch apiKey db dbUp
  | none => optionalAuthApiKeyBranch apiKey db dbUp

/-! ## JavaScript number and string semantics used by `userRateLimit` -/

/-- A JavaScript number restricted to the values `userRateLimit` handles:
an integer, or `NaN` (represented by `none`). -/
def JSNum := Option Int
deriving DecidableEq, Repr

/-- Longest prefix of decimal digits. -/
def takeDigits : List Char → List Char
  | [] => []
  | c :: cs => if c.isDigit then c :: takeDigits cs else []

/-- Value of a digit string, most significant first. -/
def digitsToNat (ds : List Char) : Nat :=
  ds.foldl (fun a c => a * 10 + (c.toNat - 48)) 0

/-- `parseInt(s, 10)`: skip leading whitespace, read an optional sign, then
the longest prefix of decimal digits; `NaN` (here `none`) if that prefix is
empty. -/
def parseIntJS (s : String) : JSNum :=
  let cs := s.data.dropWhile (fun c => c == ' ' || c == '\t' || c == '\n' || c == '\r')
  let signed : Int × List Char :=
    match cs with
    | '-' :: t => (-1, t)
    | '+' :: t => (1, t)
    | t => (1, t)
  let ds := takeDigits signed.2
  if ds.isEmpty then none else some (signed.1 * digitsToNat ds)

/-- `a >= b` on a possibly-NaN left operand: any comparison with `NaN` is
false. -/
def jsGE (a : JSNum) (b : Int) : Bool :=
  match a with
  | none => false
  | some x => decide (b ≤ x)

/-- `a + n`: `NaN` propagates. -/
def jsAdd (a : JSNum) (n : Int) : JSNum :=
  Option.map (fun x => x + n) a

/-- `Number.prototype.toString` on the values at hand: `NaN` prints as the
string NaN, integers in decimal. -/
def jsNumToString : JSNum → String
  | none => "NaN"
  | some x => toString x

/-- `x || d` on `req.user.rateLimitPerHour` (an integer or `undefined`):
`undefined` and `0` are falsy and give the default. -/
def jsOrInt (x : Option Int) (d : Int) : Int :=
  match x with
  | none => d
  | some v => if v = 0 then d else v

/-- `(await cache.get(key)) || d`: both `null` and the empty string are
falsy. -/
def jsOrStr (x : Option String) (d : String) : String :=
  match x with
  | none => d
  | some s => if s = "" then d else s

/-! ## The Quota Admission Controller (`userRateLimit`) -/

/-- A side effect performed by `userRateLimit`, in execution order:
a counter write `cache.set(key, value, ttl)`, the audit-log INSERT, or a
`logger.error` from the enclosing `catch`. -/
inductive Effect where
  | cacheSet (key : String) (value : String) (ttlSeconds : Nat)
  | auditInsert (userId : Int) (action : String)
  | logError (msg : String)
deriving DecidableEq, Repr

/-- The quota-counter key: rate_limit: ++ userId ++ : ++ currentHour,
where `currentHour` is `new Date().toISOString().slice(0, 13)`. -/
def rateLimitKey (userId : Int) (currentHour : String) : String :=
  "rate_limit:" ++ toString userId ++ ":" ++ currentHour

/-- Terminal response of `userRateLimit`: `next()`, the 401 for a missing
`req.user`, or the 429 carrying the configured limit and `retryAfter`. -/
inductive RLOutcome where
  | admitted
  | unauthorized (message : String)
  | quotaExceeded (limit : Int) (retryAfter : Nat)
deriving DecidableEq, Repr

/-- `userRateLimit` (config.ts lines 197-254). `cacheGet` is the result of
`await cache.get(cacheKey)` (`.error` = the call threw, e.g. connect
failure; `.ok none` = miss or a swallowed client `get` error; `.ok (some s)`
= cached string `s`). `cacheSet` is the outcome of the counter write-back
(`CacheService.set` rethrows client errors), `auditInsert` the outcome of the
audit-log INSERT. Any throw lands in the trailing `catch`, which logs and
calls `next()` — it never blocks the request. Returns the response outcome
and the ordered trace of effects that happened. -/
def userRateLimit (user : Option AuthUser) (currentHour : String)
    (cacheGet : Except Unit (Option String)) (cacheSet : Except Unit Unit)
    (auditInsert : Except Unit Unit) : RLOutcome × List Effect :=
  match user with
  | none => (.unauthorized "Authentication required", [])
  | some u =>
    let rateLimitPerHour := jsOrInt u.rateLimitPerHour 100
    let cacheKey := rateLimitKey u.userId currentHour
    match cacheGet with
    | .error _ => (.admitted, [.logError "Rate limiting error:"])
    | .ok v =>
      let currentCountStr := jsOrStr v "0"
      let currentCount := parseIntJS currentCountStr
      if jsGE currentCount rateLimitPerHour then
        (.quotaExceeded rateLimitPerHour 3600, [])
      else
        match cacheServiceSet cacheSet with
        | .error _ => (.admitted, [.logError "Rate limiting error:"])
        | .ok _ =>
          let write := Effect.cacheSet cacheKey (jsNumToString (jsAdd currentCount 1)) 3600
          match auditInsert with
          | .error _ => (.admitted, [write, .logError "Rate limiting error:"])
          | .ok _ => (.admitted, [write, .auditInsert u.userId "api_request"])

/-! ## Running the controller against a concrete cache store -/

/-- The Fast Lookup Cache contents for the quota counters: newest binding
first, `storeGet` reads the newest. -/
abbrev Store := List (String × String)

/-- `cache.get`: the most recent value written under `k`, if any. -/
def storeGet (st : Store) (k : String) : Option String :=
  (List.find? (fun p => p.1 == k) st).map (fun p => p.2)

/-- Apply one effect to the store (`cache.set` prepends the new binding;
audit inserts and logs do not touch the cache). -/
def applyEffect (st : Store) : Effect → Store
  | .cacheSet k v _ => (k, v) :: st
  | _ => st

/-- Apply a trace of effects in order. -/
def applyEffects (st : Store) (effs : List Effect) : Store :=
  effs.foldl applyEffect st

/-- One request through `userRateLimit` with a healthy cache and audit log:
the counter is read from `st`, and the effects are applied to it. Returns
(outcome, effect trace, updated store). -/
def rlStep (u : AuthUser) (currentHour : String) (st : Store) :
    RLOutcome × List Effect × Store :=
  let r := userRateLimit (some u) currentHour
    (.ok (storeGet st (rateLimitKey u.userId currentHour))) (.ok ()) (.ok ())
  (r.1, r.2, applyEffects st r.2)

/-- A sequence of `n` requests for the same user in the same hour bucket:
for each request in order, its response outcome and effect trace; plus the
final store. -/
def rlRun (u : AuthUser) (currentHour : String) :
    Nat → Store → List (RLOutcome × List Effect) × Store
  | 0, st => ([], st)
  | n + 1, st =>
    let r := rlStep u currentHour st
    let rest := rlRun u currentHour n r.2.2
    ((r.1, r.2.1) :: rest.1, rest.2)

/-! ## Helper lemmas and concrete fixtures -/

/-- Reading right after a write returns the written value. -/
theorem storeGet_cons (st : Store) (k v : String) :
    storeGet ((k, v) :: st) k = some v := by
  simp [storeGet, List.find?]

/-- An admitted `rlStep`, spelled out: when the counter read under the
user's key yields `v` and the parsed count is below the effective limit, the
step admits, writes the incremented counter with a 3600-second TTL, records
the audit insert, and prepends the new counter binding to the store. -/
theorem rlStepAdmit (u : AuthUser) (currentHour : String) (st : Store)
    (v : Option String)
    (hv : storeGet st (rateLimitKey u.userId currentHour) = v)
    (hlt : jsGE (parseIntJS (jsOrStr v "0")) (jsOrInt u.rateLimitPerHour 100) = false) :
    rlStep u currentHour st =
      (.admitted,
       [.cacheSet (rateLimitKey u.userId currentHour)
          (jsNumToString (jsAdd (parseIntJS (jsOrStr v "0")) 1)) 3600,
        .auditInsert u.userId "api_request"],
       (rateLimitKey u.userId currentHour,
        jsNumToString (jsAdd (parseIntJS (jsOrStr v "0")) 1)) :: st) := by
  simp [rlStep, userRateLimit, hv, hlt, cacheServiceSet, applyEffects, applyEffect]

/-- A rejected `rlStep`: when the parsed count reaches the effective limit,
the step returns the 429 with `retryAfter = 3600`, performs no effect, and
leaves the store unchanged. -/
theorem rlStepReject (u : AuthUser) (currentHour : String) (st : Store)
    (v : Option String)
    (hv : storeGet st (rateLimitKey u.userId currentHour) = v)
    (hge : jsGE (parseIntJS (jsOrStr v "0")) (jsOrInt u.rateLimitPerHour 100) = true) :
    rlStep u currentHour st =
      (.quotaExceeded (jsOrInt u.rateLimitPerHour 100) 3600, [], st) := by
  simp [rlStep, userRateLimit, hv, hge, applyEffects]

/-- Account fixture: deactivated row with an otherwise valid credential. -/
def inactiveAccount : UserRow :=
  { id := 1, username := "alice", email := "alice@example.com",
    password_hash := "hash1", api_key := some "key-1",
    rate_limit_per_hour := some 100, is_active := false }

/-- Account fixture: active row bound to the API key key-2. -/
def apiAccount : UserRow :=
  { id := 2, username := "bob", email := "bob@example.com",
    password_hash := "hash2", api_key := some "key-2",
    rate_limit_per_hour := some 50, is_active := true }

/-- Identity fixture with an hourly quota of 3, as resolved onto
`req.user`. -/
def quotaThreeUser : AuthUser :=
  { userId := 7, email := "eve@example.com", username := "eve",
    apiKey := none, rateLimitPerHour := some 3 }

/-! ## Claim theorems -/

/-- C6: whenever `jwt.verify` throws a `JsonWebTokenError` (the class raised
for expired, malformed and signature-tampered tokens alike), Scheme A
responds 401 Invalid token — never the UnknownAccount-style User not found —
and the Identity Store is not consulted; conversely, the store is consulted
only when verification succeeded. -/
theorem authenticateToken_invalidToken_beforeStore (t : String)
    (v : VerifyOutcome) (db : List UserRow) (dbUp : Bool) :
    (v = .jwtError →
      authenticateToken (some t) v db dbUp = (.unauthorized "Invalid token", false)) ∧
    ((authenticateToken (some t) v db dbUp).2 = true → ∃ c, v = .ok c) := by
  constructor
  · rintro rfl
    rfl
  · intro h
    cases v with
    | ok c => exact ⟨c, rfl⟩
    | jwtError => simp [authenticateToken] at h
    | otherError => simp [authenticateToken] at h

/-- Witness for C6 at a concrete tampered token. -/
theorem authenticateToken_invalidToken_beforeStore_witness :
    authenticateToken (some "tampered") .jwtError [inactiveAccount, apiAccount] true =
      (.unauthorized "Invalid token", false) :=
  (authenticateToken_invalidToken_beforeStore "tampered" .jwtError
    [inactiveAccount, apiAccount] true).1 rfl

/-- C2 (code bug): a deactivated account with a valid, unexpired token is
AUTHENTICATED by Scheme A. The row has `is_active = false`, yet
`authenticateToken` resolves it and calls `next()`: the SQL neither selects
nor tests `is_active`, although the code's own comment says
"Verify user still exists and is active" and the spec requires inactive
accounts to fail all authentication. -/
theorem authenticateToken_admitsInactiveAccount :
    inactiveAccount.is_active = false ∧
    authenticateToken (some "valid-token") (.ok ⟨1⟩) [inactiveAccount] true =
      (.authenticated
        { userId := 1, email := "alice@example.com", username := "alice",
          apiKey := some "key-1", rateLimitPerHour := some 100 }, true) := by
  constructor
  · rfl
  · decide

/-- C3 counterexample: on a cache miss with a successful store lookup, a
failing 300-second write-back makes the whole request fail with the
500-equivalent Authentication failed — the resolved identity is NOT
returned, contradicting the best-effort reading. -/
theorem authenticateApiKey_cacheWriteFailure_fails :
    authenticateApiKey (some "key-2") (.ok none) [apiAccount] true (.error ()) =
      (.serverError "Authentication failed", []) := by
  decide

/-- C3 amended: the write-back is awaited and `CacheService.set` rethrows
client errors, so for every key resolved from the store on a cache miss, a
cache-write failure fails the request with a 500-equivalent response
instead of returning the identity. -/
theorem authenticateApiKey_cacheWriteFailure (key : String) (db : List UserRow)
    (r : UserRow) (rest : List UserRow)
    (h : queryByApiKey db key = r :: rest) :
    authenticateApiKey (some key) (.ok none) db true (.error ()) =
      (.serverError "Authentication failed", []) := by
  simp [authenticateApiKey, h, cacheServiceSet]

/-- Witness for the amended C3 at a concrete key and store. -/
theorem authenticateApiKey_cacheWriteFailure_witness :
    authenticateApiKey (some "key-2") (.ok none) [apiAccount] true (.error ()) =
      (.serverError "Authentication failed", []) ∧
    queryByApiKey [apiAccount] "key-2" = [apiAccount] :=
  ⟨authenticateApiKey_cacheWriteFailure "key-2" [apiAccount] apiAccount [] (by decide),
   by decide⟩

/-- C8: API-key resolution is idempotent across cache states. A cold-cache
call resolves the first store row for the key and writes it back under
api_key:(key) with a 300-second expiry; a warm-cache call that reads that
very write-back resolves the identical identity fields without touching the
store. -/
theorem authenticateApiKey_idempotent (key : String) (db : List UserRow)
    (r : UserRow) (rest : List UserRow)
    (h : queryByApiKey db key = r :: rest) :
    authenticateApiKey (some key) (.ok none) db true (.ok ()) =
      (.authenticated (toAuthUser (projRow r)),
       [(apiCacheKey key, .userJson (projRow r), 300)]) ∧
    authenticateApiKey (some key) (.ok (some (.userJson (projRow r)))) db true (.ok ()) =
      (.authenticated (toAuthUser (projRow r)), []) := by
  constructor
  · simp [authenticateApiKey, h, cacheServiceSet]
  · simp [authenticateApiKey, jsonParseProj]

/-- Witness for C8 at a concrete key and store. -/
theorem authenticateApiKey_idempotent_witness :
    authenticateApiKey (some "key-2") (.ok none) [apiAccount] true (.ok ()) =
      (.authenticated (toAuthUser (projRow apiAccount)),
       [(apiCacheKey "key-2", .userJson (projRow apiAccount), 300)]) ∧
    authenticateApiKey (some "key-2") (.ok (some (.userJson (projRow apiAccount))))
        [apiAccount] true (.ok ()) =
      (.authenticated (toAuthUser (projRow apiAccount)), []) :=
  authenticateApiKey_idempotent "key-2" [apiAccount] apiAccount [] (by decide)

/-- C4 counterexample: with both a Bearer header and an API key presented
and the token failing verification, `optionalAuth` proceeds with no
identity and NO store query at all — the API-key scheme is not attempted,
even though the store binds the presented key. -/
theorem optionalAuth_skipsApiKeyOnBearer :
    optionalAuth (some "Bearer tampered") (some "key-2") .jwtError [apiAccount] true =
      (none, []) := by
  decide

/-- C4 amended: `optionalAuth` never rejects, and it tolerates failure of
the scheme it attempts by proceeding with no identity; but the two schemes
are exclusive alternatives: whenever the authorization header starts with
Bearer, no API-key store query is ever issued (so a failed token does not
fall back to the API key), and the API-key scheme runs only without such a
header (where a store failure is likewise tolerated). -/
theorem optionalAuth_bearerShadowsApiKey (h k : String) (v : VerifyOutcome)
    (db : List UserRow) (dbUp : Bool)
    (hb : strStartsWith h "Bearer " = true) :
    (∀ q ∈ (optionalAuth (some h) (some k) v db dbUp).2, ∀ key, q ≠ .byApiKey key) ∧
    (v = .jwtError → optionalAuth (some h) (some k) v db dbUp = (none, [])) ∧
    optionalAuth none (some k) v db false = (none, [.byApiKey k]) := by
  refine ⟨?_, ?_, ?_⟩
  · intro q hq key
    simp only [optionalAuth, hb, if_true] at hq
    cases v with
    | ok c =>
      cases hdb : dbUp with
      | true =>
        simp only [hdb, if_true] at hq
        cases hq' : queryById db c.userId with
        | nil => simp [hq'] at hq; simp [hq]
        | cons a l => simp [hq'] at hq; simp [hq]
      | false => simp [hdb] at hq; simp [hq]
    | jwtError => simp at hq
    | otherError => simp at hq
  · rintro rfl
    simp [optionalAuth, hb]
  · rfl

/-- Witness for the amended C4 at a concrete request presenting both
credentials with a failing token. -/
theorem optionalAuth_bearerShadowsApiKey_witness :
    optionalAuth (some "Bearer tampered") (some "key-2") .jwtError [apiAccount] true =
      (none, []) ∧
    optionalAuth none (some "key-2") .jwtError [apiAccount] false =
      (none, [.byApiKey "key-2"]) := by
  have h := optionalAuth_bearerShadowsApiKey "Bearer tampered" "key-2" .jwtError
    [apiAccount] true (by decide)
  exact ⟨h.2.1 rfl, h.2.2⟩

/-- C1: with `hourlyQuota = 3` and no counter yet stored for the user's
hour bucket, three consecutive requests admit, writing the counter back as
1, 2, 3 (each with a 3600-second TTL) and recording the audit insert; the
fourth request in the same bucket is rejected with the 429-equivalent
`quotaExceeded` carrying the limit 3 and `retryAfter = 3600`, touching
nothing. -/
theorem userRateLimit_quotaThree (u : AuthUser) (currentHour : String) (st : Store)
    (hq : u.rateLimitPerHour = some 3)
    (h0 : storeGet st (rateLimitKey u.userId currentHour) = none) :
    rlStep u currentHour st =
      (.admitted,
       [.cacheSet (rateLimitKey u.userId currentHour) "1" 3600,
        .auditInsert u.userId "api_request"],
       (rateLimitKey u.userId currentHour, "1") :: st) ∧
    rlStep u currentHour ((rateLimitKey u.userId currentHour, "1") :: st) =
      (.admitted,
       [.cacheSet (rateLimitKey u.userId currentHour) "2" 3600,
        .auditInsert u.userId "api_request"],
       (rateLimitKey u.userId currentHour, "2") ::
         (rateLimitKey u.userId currentHour, "1") :: st) ∧
    rlStep u currentHour
        ((rateLimitKey u.userId currentHour, "2") ::
          (rateLimitKey u.userId currentHour, "1") :: st) =
      (.admitted,
       [.cacheSet (rateLimitKey u.userId currentHour) "3" 3600,
        .auditInsert u.userId "api_request"],
       (rateLimitKey u.userId currentHour, "3") ::
         (rateLimitKey u.userId currentHour, "2") ::
         (rateLimitKey u.userId currentHour, "1") :: st) ∧
    rlStep u currentHour
        ((rateLimitKey u.userId currentHour, "3") ::
          (rateLimitKey u.userId currentHour, "2") ::
          (rateLimitKey u.userId currentHour, "1") :: st) =
      (.quotaExceeded 3 3600, [],
       (rateLimitKey u.userId currentHour, "3") ::
         (rateLimitKey u.userId currentHour, "2") ::
         (rateLimitKey u.userId currentHour, "1") :: st) := by
  refine ⟨?_, ?_, ?_, ?_⟩
  · exact rlStepAdmit u currentHour st none h0 (by rw [hq]; decide)
  · exact rlStepAdmit u currentHour _ (some "1")
      (storeGet_cons st _ "1") (by rw [hq]; decide)
  · exact rlStepAdmit u currentHour _ (some "2")
      (storeGet_cons _ _ "2") (by rw [hq]; decide)
  · have t := rlStepReject u currentHour
      ((rateLimitKey u.userId currentHour, "3") ::
        (rateLimitKey u.userId currentHour, "2") ::
        (rateLimitKey u.userId currentHour, "1") :: st)
      (some "3") (storeGet_cons _ _ "3") (by rw [hq]; decide)
    rw [hq] at t
    exact t

/-- Witness for C1 at a concrete identity, hour bucket and empty store. -/
theorem userRateLimit_quotaThree_witness :
    rlStep quotaThreeUser "2024-01-01T13" [] =
      (.admitted,
       [.cacheSet (rateLimitKey 7 "2024-01-01T13") "1" 3600, .auditInsert 7 "api_request"],
       [(rateLimitKey 7 "2024-01-01T13", "1")]) ∧
    rlStep quotaThreeUser "2024-01-01T13" [(rateLimitKey 7 "2024-01-01T13", "1")] =
      (.admitted,
       [.cacheSet (rateLimitKey 7 "2024-01-01T13") "2" 3600, .auditInsert 7 "api_request"],
       [(rateLimitKey 7 "2024-01-01T13", "2"), (rateLimitKey 7 "2024-01-01T13", "1")]) ∧
    rlStep quotaThreeUser "2024-01-01T13"
        [(rateLimitKey 7 "2024-01-01T13", "2"), (rateLimitKey 7 "2024-01-01T13", "1")] =
      (.admitted,
       [.cacheSet (rateLimitKey 7 "2024-01-01T13") "3" 3600, .auditInsert 7 "api_request"],
       [(rateLimitKey 7 "2024-01-01T13", "3"), (rateLimitKey 7 "2024-01-01T13", "2"),
        (rateLimitKey 7 "2024-01-01T13", "1")]) ∧
    rlStep quotaThreeUser "2024-01-01T13"
        [(rateLimitKey 7 "2024-01-01T13", "3"), (rateLimitKey 7 "2024-01-01T13", "2"),
         (rateLimitKey 7 "2024-01-01T13", "1")] =
      (.quotaExceeded 3 3600, [],
       [(rateLimitKey 7 "2024-01-01T13", "3"), (rateLimitKey 7 "2024-01-01T13", "2"),
        (rateLimitKey 7 "2024-01-01T13", "1")]) :=
  userRateLimit_quotaThree quotaThreeUser "2024-01-01T13" [] rfl rfl

/-- C5: the Quota Admission Controller fails open on cache unavailability.
If the counter read throws, the request is admitted and the condition is
logged (by the enclosing `catch`); if the read succeeded and the check
passed but the counter write-back throws, the request is again admitted and
logged — in neither case does the caller's request fail. -/
theorem userRateLimit_failOpen (u : AuthUser) (currentHour : String)
    (v : Option String) (cs ca : Except Unit Unit)
    (hlt : jsGE (parseIntJS (jsOrStr v "0")) (jsOrInt u.rateLimitPerHour 100) = false) :
    userRateLimit (some u) currentHour (.error ()) cs ca =
      (.admitted, [.logError "Rate limiting error:"]) ∧
    userRateLimit (some u) currentHour (.ok v) (.error ()) ca =
      (.admitted, [.logError "Rate limiting error:"]) := by
  constructor
  · rfl
  · simp [userRateLimit, hlt, cacheServiceSet]

/-- Witness for C5 at a concrete identity with an unreachable cache. -/
theorem userRateLimit_failOpen_witness :
    userRateLimit (some quotaThreeUser) "2024-01-01T13" (.error ()) (.ok ()) (.ok ()) =
      (.admitted, [.logError "Rate limiting error:"]) ∧
    userRateLimit (some quotaThreeUser) "2024-01-01T13" (.ok none) (.error ()) (.ok ()) =
      (.admitted, [.logError "Rate limiting error:"]) :=
  userRateLimit_failOpen quotaThreeUser "2024-01-01T13" none (.ok ()) (.ok ()) (by decide)

/-- C7: once the quota check has decided to admit (parsed count below the
effective limit) and the counter was written, a failing audit-log insert is
swallowed by the `catch`: the request is still admitted, with the counter
write in place and the failure merely logged. -/
theorem userRateLimit_auditFailureStillAdmits (u : AuthUser) (currentHour : String)
    (v : Option String)
    (hlt : jsGE (parseIntJS (jsOrStr v "0")) (jsOrInt u.rateLimitPerHour 100) = false) :
    userRateLimit (some u) currentHour (.ok v) (.ok ()) (.error ()) =
      (.admitted,
       [.cacheSet (rateLimitKey u.userId currentHour)
          (jsNumToString (jsAdd (parseIntJS (jsOrStr v "0")) 1)) 3600,
        .logError "Rate limiting error:"]) := by
  simp [userRateLimit, hlt, cacheServiceSet]

/-- Witness for C7 at a concrete admitted request with a failing audit
insert. -/
theorem userRateLimit_auditFailureStillAdmits_witness :
    userRateLimit (some quotaThreeUser) "2024-01-01T13" (.ok none) (.ok ()) (.error ()) =
      (.admitted,
       [.cacheSet (rateLimitKey 7 "2024-01-01T13") "1" 3600,
        .logError "Rate limiting error:"]) :=
  userRateLimit_auditFailureStillAdmits quotaThreeUser "2024-01-01T13" none (by decide)

/-- C10: the counter write-back precedes the audit insert in the effect
order, and an audit failure does not roll it back: with the audit insert
failing, the request is admitted and the trace still carries the counter
write; with the audit succeeding, the trace is the counter write followed
by the audit insert. -/
theorem userRateLimit_incrementPrecedesAudit (u : AuthUser) (currentHour : String)
    (v : Option String)
    (hlt : jsGE (parseIntJS (jsOrStr v "0")) (jsOrInt u.rateLimitPerHour 100) = false) :
    (userRateLimit (some u) currentHour (.ok v) (.ok ()) (.error ())).1 = .admitted ∧
    (userRateLimit (some u) currentHour (.ok v) (.ok ()) (.error ())).2 =
      [.cacheSet (rateLimitKey u.userId currentHour)
         (jsNumToString (jsAdd (parseIntJS (jsOrStr v "0")) 1)) 3600,
       .logError "Rate limiting error:"] ∧
    (userRateLimit (some u) currentHour (.ok v) (.ok ()) (.ok ())).2 =
      [.cacheSet (rateLimitKey u.userId currentHour)
         (jsNumToString (jsAdd (parseIntJS (jsOrStr v "0")) 1)) 3600,
       .auditInsert u.userId "api_request"] := by
  refine ⟨?_, ?_, ?_⟩ <;> simp [userRateLimit, hlt, cacheServiceSet]

/-- Witness for C10 at a concrete admitted request. -/
theorem userRateLimit_incrementPrecedesAudit_witness :
    (userRateLimit (some quotaThreeUser) "2024-01-01T13" (.ok none) (.ok ()) (.error ())).1 =
      .admitted ∧
    (userRateLimit (some quotaThreeUser) "2024-01-01T13" (.ok none) (.ok ()) (.error ())).2 =
      [.cacheSet (rateLimitKey 7 "2024-01-01T13") "1" 3600,
       .logError "Rate limiting error:"] ∧
    (userRateLimit (some quotaThreeUser) "2024-01-01T13" (.ok none) (.ok ()) (.ok ())).2 =
      [.cacheSet (rateLimitKey 7 "2024-01-01T13") "1" 3600,
       .auditInsert 7 "api_request"] :=
  userRateLimit_incrementPrecedesAudit quotaThreeUser "2024-01-01T13" none (by decide)

/-- C9: a corrupted counter string (one `parseInt` maps to `NaN`) poisons
the bucket open: the request is admitted (the `NaN >= quota` comparison is
false) and the counter is written back as the string NaN, and every
subsequent request in that hour bucket — any number of them — is likewise
admitted, the stored counter staying NaN; quota enforcement never rejects
again for that bucket. -/
theorem userRateLimit_corruptCounterAdmitsForever (u : AuthUser) (currentHour : String)
    (st : Store) (s : String)
    (hv : storeGet st (rateLimitKey u.userId currentHour) = some s)
    (hna : parseIntJS s = none) (hne : s ≠ "") (n : Nat) :
    (∀ p ∈ (rlRun u currentHour n st).1, p.1 = .admitted) ∧
    (1 ≤ n →
      storeGet (rlRun u currentHour n st).2 (rateLimitKey u.userId currentHour) =
        some "NaN") := by
  induction n generalizing st s with
  | zero =>
    refine ⟨?_, ?_⟩
    · intro p hp
      simp [rlRun] at hp
    · omega
  | succ n ih =>
    have h1 : jsOrStr (some s) "0" = s := by simp [jsOrStr, hne]
    have step : rlStep u currentHour st =
        (.admitted,
         [.cacheSet (rateLimitKey u.userId currentHour) "NaN" 3600,
          .auditInsert u.userId "api_request"],
         (rateLimitKey u.userId currentHour, "NaN") :: st) := by
      have t := rlStepAdmit u currentHour st (some s) hv (by rw [h1, hna]; rfl)
      rw [h1, hna] at t
      exact t
    have ihNaN := ih ((rateLimitKey u.userId currentHour, "NaN") :: st) "NaN"
      (storeGet_cons st _ "NaN") (by decide) (by decide)
    refine ⟨?_, ?_⟩
    · intro p hp
      simp only [rlRun, step] at hp
      cases hp with
      | head => rfl
      | tail b h => exact ihNaN.1 p h
    · intro _
      simp only [rlRun, step]
      rcases Nat.eq_zero_or_pos n with hn | hn
      · subst hn
        exact storeGet_cons st _ "NaN"
      · exact ihNaN.2 hn

/-- Witness for C9: a garbage counter value, three subsequent requests all
admitted and the stored counter left as NaN. -/
theorem userRateLimit_corruptCounterAdmitsForever_witness :
    storeGet (rlRun quotaThreeUser "2024-01-01T13" 3
        [(rateLimitKey 7 "2024-01-01T13", "garbage")]).2
      (rateLimitKey 7 "2024-01-01T13") = some "NaN" ∧
    ((rlRun quotaThreeUser "2024-01-01T13" 3
        [(rateLimitKey 7 "2024-01-01T13", "garbage")]).1.map Prod.fst =
      [.admitted, .admitted, .admitted]) :=
  ⟨(userRateLimit_corruptCounterAdmitsForever quotaThreeUser "2024-01-01T13"
      [(rateLimitKey 7 "2024-01-01T13", "garbage")] "garbage"
      (by decide) (by decide) (by decide) 3).2 (by decide),
   by decide⟩

end ClaudeServer
